import Mathlib

/-!
Verification development for the `@apigrate/dao` data-access layer.

The JavaScript sources embedded here:
* `lib/criteria-helper.js` — the `CriteriaHelper` WHERE-clause builder.
* `lib/mysql/dao.js` — the `Dao` table gateway (metadata introspection,
  find/count/update/updateMatching/deleteMatching/exists/deleteWhere,
  `_appendOrderByAndLimit`, `_transformToSafeValue`).
* the newer gateway source (the lodash-free `Dao`, "since 4.4.0") — its
  `create` with the `explicit_pk` override, embedded in namespace `DaoV2`.

JavaScript values are modelled by `JsValue` (undefined, null, booleans,
numbers as `Int`, strings, and flat arrays of scalars — nested arrays never
arise in the embedded code paths).  JavaScript exceptions and promise
rejections are modelled with `Except JsErr`.  The connection pool is a
function from (sql text, parameter list) to a driver outcome, and every
gateway operation additionally returns the list of SQL statements it issued
to the pool, so that "issues no SQL" claims are expressible.
-/

set_option maxHeartbeats 1000000
set_option autoImplicit false

/-- Scalar JavaScript values (elements of flat arrays). -/
inductive JsPrim where
  | undef
  | null
  | bool (b : Bool)
  | num (n : Int)
  | str (s : String)
deriving DecidableEq, Repr

/-- JavaScript values as they flow through the criteria builder and gateway:
undefined, null, booleans, numbers (modelled as `Int`), strings, and flat
arrays of scalars. -/
inductive JsValue where
  | undef
  | null
  | bool (b : Bool)
  | num (n : Int)
  | str (s : String)
  | arr (vs : List JsPrim)
deriving DecidableEq, Repr

/-- JavaScript truthiness: `undefined`, `null`, `false`, `0` and `''` are
falsy; every object (in particular every array) is truthy. -/
def JsValue.truthy : JsValue → Bool
  | .undef => false
  | .null => false
  | .bool b => b
  | .num n => n != 0
  | .str s => s != ""
  | .arr _ => true

/-- lodash `_.isNil` / `typeof x === 'undefined' || x === null`. -/
def JsValue.isNil : JsValue → Bool
  | .undef => true
  | .null => true
  | _ => false

/-- JavaScript string coercion (`'' + v`) for the values of the model. -/
def JsPrim.toJsString : JsPrim → String
  | .undef => "undefined"
  | .null => "null"
  | .bool b => if b then "true" else "false"
  | .num n => toString n
  | .str s => s

/-- JavaScript string coercion (`'' + v`) for the values of the model;
an array coerces to its comma-joined elements. -/
def JsValue.toJsString : JsValue → String
  | .undef => "undefined"
  | .null => "null"
  | .bool b => if b then "true" else "false"
  | .num n => toString n
  | .str s => s
  | .arr vs => String.intercalate "," (vs.map JsPrim.toJsString)

/-- JavaScript `String.prototype.toUpperCase` (ASCII, per-character). -/
def jsToUpper (s : String) : String := ⟨s.data.map Char.toUpper⟩

/-- JavaScript `String.prototype.endsWith`. -/
def jsEndsWith (s target : String) : Bool := target.data.isSuffixOf s.data

/-- JavaScript `String.prototype.startsWith` after string coercion
(lodash `_.startsWith`). -/
def jsStartsWith (v : JsValue) (p : String) : Bool :=
  p.data.isPrefixOf v.toJsString.data

/-- JavaScript `String.prototype.includes` (substring containment). -/
def strIncludes (s sub : String) : Bool :=
  go s.data
where
  go : List Char → Bool
  | [] => sub.data.isPrefixOf []
  | c :: cs => sub.data.isPrefixOf (c :: cs) || go cs

/-- Number of `?` placeholder characters in a SQL text fragment. -/
def qcount (s : String) : Nat := s.data.countP (fun ch => ch == '?')

/-- Concatenation of a list of strings (with definitional unfolding on cons). -/
def strConcat : List String → String
  | [] => ""
  | s :: rest => s ++ strConcat rest

/-- The `isEmpty` helper of `lib/criteria-helper.js`:
`(typeof x==='undefined' || x === null) || (!Array.isArray(x) && x.length===0)`.
Only strings among non-array values carry a `length` property, and
`undefined === 0` is `false`, so numbers and booleans are never "empty";
arrays are excluded by the `!Array.isArray(x)` guard. -/
def jsIsEmpty : JsValue → Bool
  | .undef => true
  | .null => true
  | .str s => s.length == 0
  | .bool _ => false
  | .num _ => false
  | .arr _ => false

/-- JavaScript `a || b` (first truthy operand). -/
def jsOr (a b : JsValue) : JsValue := if a.truthy then a else b

namespace CriteriaHelper

/-- The documented constructor options object `{omitIfNull, omitIfEmpty}`.
The field values are arbitrary JavaScript values (booleans in practice). -/
structure CtorOpts where
  omitIfNull : JsValue
  omitIfEmpty : JsValue

/-- The `queryOptions` record accumulated by `orderBy`/`limit`/`offset`
(each field starts absent, i.e. the empty object `{}`). -/
structure QueryOptions where
  orderBy : Option (List String)
  limit : Option Int
  offset : Option Int
deriving DecidableEq, Repr

end CriteriaHelper

/-- State of a `CriteriaHelper` instance (`lib/criteria-helper.js`). -/
structure CriteriaHelper where
  whereClause : String
  parms : List JsValue
  queryOptions : CriteriaHelper.QueryOptions
  omitNull : Bool
  omitEmpty : Bool
deriving DecidableEq, Repr

namespace CriteriaHelper

/-- `opts && opts.field` where an omitted `opts` argument is `undefined`;
a present options object is truthy, so the expression evaluates to the
field's value. -/
def optsField (opts : Option CtorOpts) (f : CtorOpts → JsValue) : JsValue :=
  match opts with
  | none => (.undef)
  | some o => f o

/-- The `CriteriaHelper` constructor.  `omitNull`/`omitEmpty` are stored as
the truthiness of `opts && opts.omitIfNull || true` (resp. `omitIfEmpty`),
exactly as the source computes them; they are only ever read in boolean
positions.  This expression is `true` whenever `opts.omitIfNull` is falsy
(the `|| true` recovers), and truthy whenever it is truthy. -/
def init (opts : Option CtorOpts) : CriteriaHelper :=
  { whereClause := ""
    parms := []
    queryOptions := { orderBy := none, limit := none, offset := none }
    omitNull := (jsOr (optsField opts (fun o => o.omitIfNull)) (.bool true)).truthy
    omitEmpty := (jsOr (optsField opts (fun o => o.omitIfEmpty)) (.bool true)).truthy }

/-- `andGroup()`: begins a parenthetical AND grouping.  The connective is
omitted when the clause is empty or ends with an opening parenthesis. -/
def andGroup (c : CriteriaHelper) : CriteriaHelper :=
  if c.whereClause == "" || jsEndsWith c.whereClause "(" then
    { c with whereClause := c.whereClause ++ " (" }
  else
    { c with whereClause := c.whereClause ++ " AND (" }

/-- `orGroup()`: begins a parenthetical OR grouping. -/
def orGroup (c : CriteriaHelper) : CriteriaHelper :=
  if c.whereClause == "" || jsEndsWith c.whereClause "(" then
    { c with whereClause := c.whereClause ++ " (" }
  else
    { c with whereClause := c.whereClause ++ " OR (" }

/-- `groupEnd()`: ends a parenthetical grouping. -/
def groupEnd (c : CriteriaHelper) : CriteriaHelper :=
  { c with whereClause := c.whereClause ++ " ) " }

/-- The internal `_where(bool, name, oper, value)` of `lib/criteria-helper.js`:
uppercases the operator; skips the clause entirely for nil values (when
`omitNull`) or empty values (when `omitEmpty`) unless the operator is unary;
renders `name oper` with a connective unless the clause is empty or ends in
`(`; then appends ` ?` for `LIKE`, `(?)` for operators containing `IN`, and
`?` otherwise, pushing the value onto `parms`. -/
def whereOp (c : CriteriaHelper) (bool name oper : String) (value : JsValue) :
    CriteriaHelper :=
  let oper := jsToUpper oper
  if oper != "IS NOT NULL" && oper != "IS NULL" &&
      ((value.isNil && c.omitNull) || (jsIsEmpty value && c.omitEmpty)) then
    c
  else
    let wc :=
      if c.whereClause == "" || jsEndsWith c.whereClause "(" then
        c.whereClause ++ name ++ " " ++ oper
      else
        c.whereClause ++ " " ++ bool ++ " " ++ name ++ " " ++ oper
    if oper == "IS NOT NULL" || oper == "IS NULL" then
      { c with whereClause := wc }
    else if oper == "LIKE" then
      { c with whereClause := wc ++ " ?", parms := c.parms ++ [value] }
    else if strIncludes oper "IN" then
      { c with whereClause := wc ++ "(?)", parms := c.parms ++ [value] }
    else
      { c with whereClause := wc ++ "?", parms := c.parms ++ [value] }

/-- `and(name, oper, value)`. -/
def and (c : CriteriaHelper) (name oper : String) (value : JsValue) :
    CriteriaHelper :=
  c.whereOp "AND" name oper value

/-- `or(name, oper, value)`. -/
def or (c : CriteriaHelper) (name oper : String) (value : JsValue) :
    CriteriaHelper :=
  c.whereOp "OR" name oper value

/-- The public `where(bool, name, oper, value)`. -/
def whereBool (c : CriteriaHelper) (bool name oper : String) (value : JsValue) :
    CriteriaHelper :=
  c.whereOp bool name oper value

/-- `orderBy(columns)`: a no-op when the column list is empty. -/
def orderBy (c : CriteriaHelper) (columns : List String) : CriteriaHelper :=
  if columns.isEmpty then c
  else { c with queryOptions := { c.queryOptions with orderBy := some columns } }

/-- `limit(number)`: clamps nil/negative input to 1, floors otherwise
(integer model, so flooring is the identity). -/
def limit (c : CriteriaHelper) (number : Option Int) : CriteriaHelper :=
  match number with
  | none => { c with queryOptions := { c.queryOptions with limit := some 1 } }
  | some n =>
    if n < 0 then { c with queryOptions := { c.queryOptions with limit := some 1 } }
    else { c with queryOptions := { c.queryOptions with limit := some n } }

/-- `offset(number)`: clamps nil/negative input to 0, floors otherwise. -/
def offset (c : CriteriaHelper) (number : Option Int) : CriteriaHelper :=
  match number with
  | none => { c with queryOptions := { c.queryOptions with offset := some 0 } }
  | some n =>
    if n < 0 then { c with queryOptions := { c.queryOptions with offset := some 0 } }
    else { c with queryOptions := { c.queryOptions with offset := some n } }

end CriteriaHelper

/-- One call in a sequence of `and`/`or`/`where` invocations on a
`CriteriaHelper`. -/
inductive CritOp where
  | andOp (name oper : String) (value : JsValue)
  | orOp (name oper : String) (value : JsValue)
  | whereOp (bool name oper : String) (value : JsValue)

/-- Apply one builder call. -/
def applyCritOp (c : CriteriaHelper) : CritOp → CriteriaHelper
  | .andOp n o v => c.and n o v
  | .orOp n o v => c.or n o v
  | .whereOp b n o v => c.whereBool b n o v

/-- Run a sequence of builder calls left to right. -/
def runCritOps (c : CriteriaHelper) (ops : List CritOp) : CriteriaHelper :=
  ops.foldl applyCritOp c

/-- The arguments of a builder call contain no `?` character: the column
name, the boolean connective, and the operator after the case
normalization that `_where` itself performs. -/
def CritOp.noQ : CritOp → Prop
  | .andOp n o _ => qcount n = 0 ∧ qcount (jsToUpper o) = 0
  | .orOp n o _ => qcount n = 0 ∧ qcount (jsToUpper o) = 0
  | .whereOp b n o _ => qcount b = 0 ∧ qcount n = 0 ∧ qcount (jsToUpper o) = 0

instance : DecidablePred CritOp.noQ := by
  intro op
  cases op <;> simp [CritOp.noQ] <;> infer_instance

/-- A JavaScript error value: driver errors produced by the pool, ordinary
`new Error(message)` values thrown by the gateway, and the runtime errors
(`ReferenceError`, `TypeError`) the engine raises. -/
inductive JsErr where
  | dbError (msg : String)
  | jsError (msg : String)
  | referenceError (msg : String)
  | typeError (msg : String)
deriving DecidableEq, Repr

/-- A row returned by the driver: an object, modelled as an association list
of property name / value pairs. -/
abbrev Row := List (String × JsValue)

/-- The result handed back by the mysql driver: either a row array (SELECT,
SHOW COLUMNS) or an OK packet with `affectedRows` and `insertId`. -/
inductive QueryResult where
  | rows (rs : List Row)
  | okPacket (affectedRows : Nat) (insertId : JsValue)
deriving DecidableEq, Repr

deriving instance DecidableEq for Except

/-- The caller-supplied connection pool: maps a parameterized SQL text and
its parameter array to a driver outcome. -/
abbrev Pool := String → List JsValue → Except JsErr QueryResult

/-- One SQL statement issued to the pool: text plus parameter array. -/
abbrev Issued := String × List JsValue

/-- JavaScript property read `obj[key]` on an object modelled as an
association list: the first binding wins, a missing key reads `undefined`. -/
def objGet (o : List (String × JsValue)) (k : String) : JsValue :=
  match o.find? (fun kv => kv.1 == k) with
  | some kv => kv.2
  | none => (.undef)

/-- JavaScript property write `obj[key] = v`: overwrites an existing binding
in place, otherwise appends the new property. -/
def objSet (o : List (String × JsValue)) (k : String) (v : JsValue) :
    List (String × JsValue) :=
  if o.any (fun kv => kv.1 == k) then
    o.map (fun kv => if kv.1 == k then (k, v) else kv)
  else
    o ++ [(k, v)]

/-- `results.affectedRows` as a JavaScript value (`undefined` on a row
array). -/
def resAffectedRows : QueryResult → JsValue
  | .rows _ => (.undef)
  | .okPacket a _ => .num (a : Int)

/-- `results.insertId` as a JavaScript value (`undefined` on a row array). -/
def resInsertId : QueryResult → JsValue
  | .rows _ => (.undef)
  | .okPacket _ i => i

/-- JavaScript `v > 0` for the driver-supplied numbers of the model
(comparisons against `undefined` and other non-numbers yield `false`). -/
def jsGtZero : JsValue → Bool
  | .num n => decide (0 < n)
  | _ => false

/-- One column of the cached table metadata, as built by `fetchMetadata`. -/
structure ColumnMeta where
  column : JsValue
  sql_type : JsValue
  pk : Bool
  nullable : Bool
  default : JsValue
  autoincrement : Bool
  is_updated_timestamp : Bool
  is_created_timestamp : Bool
  is_updated_version : Bool
deriving DecidableEq, Repr

/-- The gateway's options record: the column-role names
(`created_timestamp_column` / `updated_timestamp_column` /
`version_number_column`), each an arbitrary JavaScript value (strings such
as `'created'` under the default options). -/
structure DaoOptions where
  created_timestamp_column : JsValue
  updated_timestamp_column : JsValue
  version_number_column : JsValue
deriving DecidableEq, Repr

/-- The default options object of the `Dao` constructor. -/
def defaultDaoOptions : DaoOptions :=
  { created_timestamp_column := .str "created"
    updated_timestamp_column := .str "updated"
    version_number_column := .str "version" }

/-- Mutable state of a `Dao` instance: the table name, the entity name, the
options, and the lazily-populated metadata cache (`null` until loaded). -/
structure DaoState where
  table : String
  entity : String
  options : DaoOptions
  metadata : Option (List ColumnMeta)
deriving DecidableEq, Repr

/-- Result of one asynchronous gateway operation: the settled promise, the
gateway state afterwards, and every SQL statement issued to the pool. -/
structure DaoOut (α : Type) where
  result : Except JsErr α
  state : DaoState
  issued : List Issued

namespace Dao

/-- `sqlCommand(sql, parms)`: delegates to `pool.query` and resolves with
the driver result or rejects with the driver error. -/
def sqlCommand (pool : Pool) (sql : String) (parms : List JsValue) :
    Except JsErr QueryResult :=
  pool sql parms

/-- The schema-introspection statement issued by `fetchMetadata`. -/
def showColumnsSql (table : String) : String :=
  "SHOW COLUMNS FROM " ++ table ++ ";"

/-- The per-row metadata mapping inside `fetchMetadata`: reads the
`SHOW COLUMNS` fields off the row object and derives the role flags from
the options (a role flag needs a non-nil option column strictly equal to
the column name). -/
def toColumnMeta (options : DaoOptions) (item : Row) : ColumnMeta :=
  let c : ColumnMeta :=
    { column := objGet item "Field"
      sql_type := objGet item "Type"
      pk := objGet item "Key" == .str "PRI"
      nullable := objGet item "Null" == .str "YES"
      default := objGet item "Default"
      autoincrement := objGet item "Extra" == .str "auto_increment"
      is_updated_timestamp := false
      is_created_timestamp := false
      is_updated_version := false }
  { c with
    is_updated_timestamp :=
      !options.updated_timestamp_column.isNil &&
        c.column == options.updated_timestamp_column
    is_created_timestamp :=
      !options.created_timestamp_column.isNil &&
        c.column == options.created_timestamp_column
    is_updated_version :=
      !options.version_number_column.isNil &&
        c.column == options.version_number_column }

/-- `fetchMetadata()`: when the cache is `null`, issues `SHOW COLUMNS` and
populates it.  The whole body sits in a `try`/`catch` whose handler only
logs, so a failing introspection query (or a driver result that is not a
row array, on which `results.map` raises a `TypeError`) leaves the cache
`null` and does NOT reject: the function returns normally either way. -/
def fetchMetadata (d : DaoState) (pool : Pool) : DaoState × List Issued :=
  match d.metadata with
  | some _ => (d, [])
  | none =>
    let sql := showColumnsSql d.table
    match sqlCommand pool sql [] with
    | .error _ => (d, [(sql, [])])
    | .ok (.okPacket _ _) => (d, [(sql, [])])
    | .ok (.rows rs) =>
      ({ d with metadata := some (rs.map (toColumnMeta d.options)) }, [(sql, [])])

/-- The `opts` object accepted by the query operations. -/
structure FindOpts where
  columns : Option (List String)
  orderBy : Option (List String)
  limit : Option Int
  offset : Option Int
  booleanMode : Option String

/-- Rendering of one `orderBy` entry: a `-` prefix means DESC, an optional
`+` prefix (or none) means ASC. -/
def renderOrderCol (colname : String) : String :=
  if colname.startsWith "-" then (colname.drop 1) ++ " DESC"
  else if colname.startsWith "+" then (colname.drop 1) ++ " ASC"
  else colname ++ " ASC"

/-- `_appendOrderByAndLimit(sql, opts)`: when `opts` is nil the whole
options block is skipped — including the `LIMIT 1000` default, which is
only appended when `opts` is present but `opts.limit` is nil.  When no
explicit `orderBy` was rendered, the primary-key columns of the cached
metadata (lodash returns `[]` on a `null` cache) are appended ascending. -/
def appendOrderByAndLimit (d : DaoState) (sql : String) (opts : Option FindOpts) :
    String :=
  let acc : String × String :=
    match opts with
    | none => ("", "")
    | some o =>
      let ob :=
        match o.orderBy with
        | some cols =>
          if cols.length > 0 then
            " ORDER BY " ++ String.intercalate ", " (cols.map renderOrderCol)
          else ""
        | none => ""
      let lim :=
        match o.limit with
        | some n => " LIMIT " ++ toString n
        | none => " LIMIT 1000"
      let lim :=
        match o.offset with
        | some n => lim ++ " OFFSET " ++ toString n
        | none => lim
      (ob, lim)
  let ob :=
    if acc.1 == "" then
      let pks := (d.metadata.getD []).filter (fun c => c.pk)
      if pks.length > 0 then
        " ORDER BY " ++
          String.intercalate ", " (pks.map (fun c => c.column.toJsString ++ " ASC"))
      else acc.1
    else acc.1
  sql ++ ob ++ acc.2

/-- `opts && opts.columns ? opts.columns.join(',') : '*'` (an empty array is
truthy in JavaScript and joins to the empty string). -/
def whichCols (opts : Option FindOpts) : String :=
  match opts with
  | some o =>
    match o.columns with
    | some cols => String.intercalate "," cols
    | none => "*"
  | none => "*"

/-- The boolean connective used between template-object predicates:
`' AND '` unless `opts.booleanMode` is non-nil. -/
def boolMode (opts : Option FindOpts) : String :=
  match opts with
  | some o =>
    match o.booleanMode with
    | some bm => " " ++ bm ++ " "
    | none => " AND "
  | none => " AND "

/-- The WHERE-body fold shared by `find`, `count`, `updateMatching` and
`deleteMatching`: every key of the template object contributes `key=?` and
pushes its value, with the connective inserted before every predicate but
the first. -/
def templateWhere (bool : String) (query : List (String × JsValue)) :
    String × List JsValue :=
  query.foldl
    (fun acc kv =>
      ((if acc.1 != "" then acc.1 ++ bool else acc.1) ++ kv.1 ++ "=?",
        acc.2 ++ [kv.2]))
    ("", [])

/-- The SQL text and parameters `find(query, opts)` builds (after metadata
is available in `d`). -/
def findStmt (d : DaoState) (query : List (String × JsValue))
    (opts : Option FindOpts) : Issued :=
  let sql := "SELECT " ++ whichCols opts ++ " FROM " ++ d.table ++ " "
  let wp := templateWhere (boolMode opts) query
  let sql := if wp.1 != "" then sql ++ " WHERE " ++ wp.1 else sql
  (appendOrderByAndLimit d sql opts, wp.2)

/-- `find(query, opts)`: fetches metadata, builds the SELECT from the
template object, issues it, and resolves with the driver result (rejecting
with the driver error unchanged). -/
def find (d : DaoState) (pool : Pool) (query : List (String × JsValue))
    (opts : Option FindOpts) : DaoOut QueryResult :=
  let fm := fetchMetadata d pool
  let stmt := findStmt fm.1 query opts
  match sqlCommand pool stmt.1 stmt.2 with
  | .error e => ⟨.error e, fm.1, fm.2 ++ [stmt]⟩
  | .ok r => ⟨.ok r, fm.1, fm.2 ++ [stmt]⟩

/-- The SQL text and parameters `count(query, opts)` builds. -/
def countStmt (d : DaoState) (query : List (String × JsValue))
    (opts : Option FindOpts) : Issued :=
  let sql := "SELECT count(*) as count FROM " ++ d.table ++ " "
  let wp := templateWhere (boolMode opts) query
  let sql := if wp.1 != "" then sql ++ " WHERE " ++ wp.1 else sql
  (appendOrderByAndLimit d sql opts, wp.2)

/-- `count(query, opts)`: like `find` but issues `SELECT count(*)` and
resolves with `results[0].count` (reading `[0]` off an empty row array or
an OK packet raises a `TypeError`, which the catch block rethrows). -/
def count (d : DaoState) (pool : Pool) (query : List (String × JsValue))
    (opts : Option FindOpts) : DaoOut JsValue :=
  let fm := fetchMetadata d pool
  let stmt := countStmt fm.1 query opts
  match sqlCommand pool stmt.1 stmt.2 with
  | .error e => ⟨.error e, fm.1, fm.2 ++ [stmt]⟩
  | .ok (.rows (r :: _)) => ⟨.ok (objGet r "count"), fm.1, fm.2 ++ [stmt]⟩
  | .ok (.rows []) =>
    ⟨.error (.typeError "Cannot read properties of undefined (reading 'count')"),
      fm.1, fm.2 ++ [stmt]⟩
  | .ok (.okPacket _ _) =>
    ⟨.error (.typeError "Cannot read properties of undefined (reading 'count')"),
      fm.1, fm.2 ++ [stmt]⟩

end Dao

namespace Dao

/-- `_transformToSafeValue(input, column)` of `lib/mysql/dao.js`: an empty
string becomes `null` for nullable datetime/timestamp/int/num/dec columns
and raises for non-nullable ones; other non-nil values of datetime or
timestamp columns are normalized through the external moment library,
abstracted here as the `fmt` parameter (its output never matters to the
claims, only that no error is raised). -/
def transformToSafeValue (fmt : JsValue → JsValue) (input : JsValue)
    (column : ColumnMeta) : Except JsErr JsValue :=
  let datatype := column.sql_type
  if input == .str "" then
    if datatype == .str "datetime" || datatype == .str "timestamp" ||
        jsStartsWith datatype "int" || jsStartsWith datatype "num" ||
        jsStartsWith datatype "dec" then
      if column.nullable then .ok .null
      else .error (.jsError (column.column.toJsString ++ " is not permitted to be empty."))
    else .ok input
  else if !input.isNil then
    if datatype == .str "datetime" || datatype == .str "timestamp" then
      .ok (fmt input)
    else .ok input
  else .ok input

/-- Does the property key `k` match a non-primary-key column that carries
one of the three automatic roles (created timestamp / version / updated
timestamp)?  Mirrors the exclusion test inside `update`'s SET fold
(`this.options` is an object, hence always truthy). -/
def excludedMatch (options : DaoOptions) (not_pks : List ColumnMeta)
    (k : String) : Bool :=
  match not_pks.find? (fun c => c.column == .str k) with
  | some col =>
    col.column == options.created_timestamp_column ||
      col.column == options.version_number_column ||
      col.column == options.updated_timestamp_column
  | none => false

/-- The SET-clause fold of `update`/`updateMatching`: every property of the
save object that matches a non-primary-key column and is not one of the
three automatic columns contributes `column=?` and pushes its transformed
value (a nil transform result is normalized to `null`); the transform may
raise, aborting the iteration. -/
def updateSetsStep (fmt : JsValue → JsValue) (options : DaoOptions)
    (not_pks : List ColumnMeta) (acc : Except JsErr (String × List JsValue))
    (kv : String × JsValue) : Except JsErr (String × List JsValue) :=
  match acc with
  | .error e => .error e
  | .ok (sets, parms) =>
    match not_pks.find? (fun c => c.column == .str kv.1) with
    | none => .ok (sets, parms)
    | some col =>
      if col.column == options.created_timestamp_column ||
          col.column == options.version_number_column ||
          col.column == options.updated_timestamp_column then
        .ok (sets, parms)
      else
        match transformToSafeValue fmt kv.2 col with
        | .error e => .error e
        | .ok pv =>
          let pv := if pv.isNil then JsValue.null else pv
          .ok ((if sets != "" then sets ++ ", " else sets) ++
                col.column.toJsString ++ "=?",
              parms ++ [pv])

/-- The SET-clause fold of `update`/`updateMatching`, iterating
`updateSetsStep` over the save object's properties in order. -/
def updateSets (fmt : JsValue → JsValue) (options : DaoOptions)
    (not_pks : List ColumnMeta) (save : List (String × JsValue)) :
    Except JsErr (String × List JsValue) :=
  save.foldl (updateSetsStep fmt options not_pks) (.ok ("", []))

/-- The automatic versioning SET terms appended after the user-driven SET
terms: `updated=CURRENT_TIMESTAMP` when an updated-timestamp column is
configured (truthy), and `version=version+1` when a version column is
configured. -/
def versioningSets (options : DaoOptions) : String :=
  (if options.updated_timestamp_column.truthy then
    ", " ++ options.updated_timestamp_column.toJsString ++ "=CURRENT_TIMESTAMP"
  else "") ++
  (if options.version_number_column.truthy then
    ", " ++ options.version_number_column.toJsString ++ "=" ++
      options.version_number_column.toJsString ++ "+1"
  else "")

/-- The primary-key WHERE fold of `update`: every primary-key column of the
metadata contributes `column=?` (AND-joined) and pushes `save[column]`,
appending to the parameter array already holding the SET parameters. -/
def pkWhere (pks : List ColumnMeta) (save : List (String × JsValue))
    (parms : List JsValue) : String × List JsValue :=
  pks.foldl
    (fun acc col =>
      ((if acc.1 != "" then acc.1 ++ " AND " else acc.1) ++
          col.column.toJsString ++ "=?",
        acc.2 ++ [objGet save col.column.toJsString]))
    ("", parms)

/-- The UPDATE statement `update(save)` builds (given the state after
metadata fetch), or the validation error it raises: the SET terms from
`updateSets` (failing with "No data was provided to update." when empty)
plus the versioning terms, keyed by the primary-key columns. -/
def updateStmt (fmt : JsValue → JsValue) (d : DaoState)
    (save : List (String × JsValue)) : Except JsErr Issued :=
  let md := d.metadata.getD []
  let not_pks := md.filter (fun c => !c.pk)
  match updateSets fmt d.options not_pks save with
  | .error e => .error e
  | .ok (sets, parms) =>
    if sets == "" then .error (.jsError "No data was provided to update.")
    else
      let sets := sets ++ versioningSets d.options
      let sql := "UPDATE " ++ d.table ++ " SET " ++ sets
      let pks := md.filter (fun c => c.pk)
      let wp := pkWhere pks save parms
      let sql := if wp.1 != "" then sql ++ " WHERE " ++ wp.1 else sql
      .ok (sql, wp.2)

/-- `update(save)`: fetches metadata, builds the UPDATE, issues it, and
resolves with the save object carrying `_affectedRows`; local validation
errors and driver errors are rethrown. -/
def update (fmt : JsValue → JsValue) (d : DaoState) (pool : Pool)
    (save : List (String × JsValue)) : DaoOut (List (String × JsValue)) :=
  let fm := fetchMetadata d pool
  match updateStmt fmt fm.1 save with
  | .error e => ⟨.error e, fm.1, fm.2⟩
  | .ok stmt =>
    match sqlCommand pool stmt.1 stmt.2 with
    | .error e => ⟨.error e, fm.1, fm.2 ++ [stmt]⟩
    | .ok r =>
      ⟨.ok (objSet save "_affectedRows" (resAffectedRows r)), fm.1,
        fm.2 ++ [stmt]⟩

/-- The UPDATE statement `updateMatching(save, criteria, opts)` builds once
past its empty-criteria guard: SET terms as in `update`, WHERE terms
AND-joined from the criteria object, then `_appendOrderByAndLimit`. -/
def updateMatchingStmt (fmt : JsValue → JsValue) (d : DaoState)
    (save criteria : List (String × JsValue)) (opts : Option FindOpts) :
    Except JsErr Issued :=
  let md := d.metadata.getD []
  let not_pks := md.filter (fun c => !c.pk)
  match updateSets fmt d.options not_pks save with
  | .error e => .error e
  | .ok (sets, parms) =>
    if sets == "" then .error (.jsError "No data was provided to update.")
    else
      let sets := sets ++ versioningSets d.options
      let sql := "UPDATE " ++ d.table ++ " SET " ++ sets
      let wp := templateWhere " AND " criteria
      let sql := if wp.1 != "" then sql ++ " WHERE " ++ wp.1 else sql
      .ok (appendOrderByAndLimit d sql opts, parms ++ wp.2)

/-- `updateMatching(save, criteria, opts)`: refuses an empty criteria
object before touching the pool (`Entire table updates are not
permitted.`); otherwise proceeds like `update` but keyed by the criteria
template. -/
def updateMatching (fmt : JsValue → JsValue) (d : DaoState) (pool : Pool)
    (save criteria : List (String × JsValue)) (opts : Option FindOpts) :
    DaoOut (List (String × JsValue)) :=
  if criteria.isEmpty then
    ⟨.error (.jsError "Entire table updates are not permitted."), d, []⟩
  else
    let fm := fetchMetadata d pool
    match updateMatchingStmt fmt fm.1 save criteria opts with
    | .error e => ⟨.error e, fm.1, fm.2⟩
    | .ok stmt =>
      match sqlCommand pool stmt.1 stmt.2 with
      | .error e => ⟨.error e, fm.1, fm.2 ++ [stmt]⟩
      | .ok r =>
        ⟨.ok (objSet save "_affectedRows" (resAffectedRows r)), fm.1,
          fm.2 ++ [stmt]⟩

/-- The DELETE statement `deleteMatching(criteria)` builds once past its
guard. -/
def deleteMatchingStmt (d : DaoState) (criteria : List (String × JsValue)) :
    Issued :=
  let wp := templateWhere " AND " criteria
  ("DELETE FROM " ++ d.table ++ " WHERE " ++ wp.1, wp.2)

/-- `deleteMatching(criteria)`: refuses an empty criteria object before
touching the pool (`Entire table deletes are not permitted.`); otherwise
deletes every row matching the AND-joined criteria and resolves with the
criteria object carrying `_affectedRows`. -/
def deleteMatching (d : DaoState) (pool : Pool)
    (criteria : List (String × JsValue)) : DaoOut (List (String × JsValue)) :=
  if criteria.isEmpty then
    ⟨.error (.jsError "Entire table deletes are not permitted."), d, []⟩
  else
    let fm := fetchMetadata d pool
    let stmt := deleteMatchingStmt fm.1 criteria
    match sqlCommand pool stmt.1 stmt.2 with
    | .error e => ⟨.error e, fm.1, fm.2 ++ [stmt]⟩
    | .ok r =>
      ⟨.ok (objSet criteria "_affectedRows" (resAffectedRows r)), fm.1,
        fm.2 ++ [stmt]⟩

/-- The SELECT issued by `exists(id)`. -/
def existsSql (table : String) : String :=
  "SELECT count(*) as count FROM " ++ table ++ " WHERE id = ?"

/-- `exists(id)` of `lib/mysql/dao.js`.  Its success path executes
`resolve(results[0].count)`, but no identifier `resolve` is in scope (the
function is a plain `async` method, not a promise executor), so the engine
raises a `ReferenceError`, the catch block rethrows it, and the promise
rejects.  On an empty row array (or an OK packet) the preceding
`results[0].count` read raises a `TypeError` first.  A driver error is
rethrown unchanged.  In no case does the promise fulfill. -/
def existsId (d : DaoState) (pool : Pool) (id : JsValue) : DaoOut JsValue :=
  let fm := fetchMetadata d pool
  let sql := existsSql fm.1.table
  match sqlCommand pool sql [id] with
  | .error e => ⟨.error e, fm.1, fm.2 ++ [(sql, [id])]⟩
  | .ok (.rows (_ :: _)) =>
    ⟨.error (.referenceError "resolve is not defined"), fm.1, fm.2 ++ [(sql, [id])]⟩
  | .ok (.rows []) =>
    ⟨.error (.typeError "Cannot read properties of undefined (reading 'count')"),
      fm.1, fm.2 ++ [(sql, [id])]⟩
  | .ok (.okPacket _ _) =>
    ⟨.error (.typeError "Cannot read properties of undefined (reading 'count')"),
      fm.1, fm.2 ++ [(sql, [id])]⟩

/-- `deleteWhere(where, parms)` of `lib/mysql/dao.js`: raises before
issuing anything when the WHERE body is nil or empty; otherwise issues the
DELETE, and then its success path executes `resolve(ret)` — again an
undefined identifier — so the DELETE reaches the database yet the promise
rejects with a `ReferenceError`.  A driver error is rethrown unchanged. -/
def deleteWhere (d : DaoState) (pool : Pool) (whereText : Option String)
    (parms : List JsValue) : DaoOut (List (String × JsValue)) :=
  let fm := fetchMetadata d pool
  match whereText with
  | none =>
    ⟨.error (.jsError "Could not delete. A WHERE clause must be provided."),
      fm.1, fm.2⟩
  | some w =>
    if w == "" then
      ⟨.error (.jsError "Could not delete. A WHERE clause must be provided."),
        fm.1, fm.2⟩
    else
      let sql := "DELETE FROM " ++ fm.1.table ++ " WHERE " ++ w
      match sqlCommand pool sql parms with
      | .error e => ⟨.error e, fm.1, fm.2 ++ [(sql, parms)]⟩
      | .ok _ =>
        ⟨.error (.referenceError "resolve is not defined"), fm.1,
          fm.2 ++ [(sql, parms)]⟩

end Dao

namespace DaoV2

/-- `_transformToSafeValue(input, column)` of the newer gateway source:
only the empty-string normalization remains (no datetime reformatting). -/
def transformToSafeValue (input : JsValue) (column : ColumnMeta) :
    Except JsErr JsValue :=
  let datatype := column.sql_type
  if input == .str "" then
    if datatype == .str "datetime" || datatype == .str "timestamp" ||
        jsStartsWith datatype "int" || jsStartsWith datatype "num" ||
        jsStartsWith datatype "dec" then
      if column.nullable then .ok .null
      else .error (.jsError (column.column.toJsString ++ " is not permitted to be empty."))
    else .ok input
  else .ok input

/-- `loadMetadata()` of the newer gateway source: same behavior as
`Dao.fetchMetadata` (the `typeof x !== 'undefined' && x !== null`
role-flag guards are the expansion of `_.isNil`), including the
log-and-swallow catch block. -/
def loadMetadata (d : DaoState) (pool : Pool) : DaoState × List Issued :=
  match d.metadata with
  | some _ => (d, [])
  | none =>
    let sql := Dao.showColumnsSql d.table
    match pool sql [] with
    | .error _ => (d, [(sql, [])])
    | .ok (.okPacket _ _) => (d, [(sql, [])])
    | .ok (.rows rs) =>
      ({ d with metadata := some (rs.map (Dao.toColumnMeta d.options)) }, [(sql, [])])

/-- The `opts` object accepted by `create` (`opts.explicit_pk`, since
4.4.0). -/
structure CreateOpts where
  explicit_pk : JsValue

/-- `opts && opts.explicit_pk` as a boolean. -/
def explicitPk (opts : Option CreateOpts) : Bool :=
  match opts with
  | none => false
  | some o => o.explicit_pk.truthy

/-- The columns eligible for INSERT: every column that is not an
autoincrement primary key (`(col.pk===true && col.autoincrement===false)
|| (col.pk===false)`), or the whole metadata when `opts.explicit_pk` is
truthy. -/
def createEligible (md : List ColumnMeta) (opts : Option CreateOpts) :
    List ColumnMeta :=
  let not_ai_pks := md.filter (fun col => (col.pk && !col.autoincrement) || !col.pk)
  if explicitPk opts then md else not_ai_pks

/-- The column-list / placeholder-list / parameter fold of `create`: every
property of the save object whose key matches an eligible column
contributes the column name to `cols`, a `?` to `vals`, and its
transformed value to `parms`; the transform may raise, aborting the
iteration. -/
def createColsStep (elig : List ColumnMeta)
    (acc : Except JsErr (String × String × List JsValue))
    (kv : String × JsValue) : Except JsErr (String × String × List JsValue) :=
  match acc with
  | .error e => .error e
  | .ok (cols, vals, parms) =>
    match elig.find? (fun x => x.column == .str kv.1) with
    | none => .ok (cols, vals, parms)
    | some col =>
      match transformToSafeValue kv.2 col with
      | .error e => .error e
      | .ok pv =>
        .ok ((if cols != "" then cols ++ ", " else cols) ++ col.column.toJsString,
            (if vals != "" then vals ++ ", " else vals) ++ "?",
            parms ++ [pv])

/-- The column-list / placeholder-list / parameter fold of `create`,
iterating `createColsStep` over the save object's properties in order. -/
def createCols (elig : List ColumnMeta) (save : List (String × JsValue)) :
    Except JsErr (String × String × List JsValue) :=
  save.foldl (createColsStep elig) (.ok ("", "", []))

/-- The INSERT statement `create(save, opts)` builds, or the transform
error it raises. -/
def createStmt (table : String) (md : List ColumnMeta)
    (save : List (String × JsValue)) (opts : Option CreateOpts) :
    Except JsErr Issued :=
  match createCols (createEligible md opts) save with
  | .error e => .error e
  | .ok (cols, vals, parms) =>
    .ok ("INSERT INTO " ++ table ++ " (" ++ cols ++ ") VALUES (" ++ vals ++ ");",
      parms)

/-- `create(save, opts)` of the newer gateway source: includes only save
properties matching eligible columns (see `createEligible`), issues the
INSERT, and when `results.affectedRows > 0 && results.insertId &&
results.insertId > 0` writes the generated id onto the save object under
the first autoincrement primary-key column before resolving with it.
When the metadata cache is still `null` after `loadMetadata` (a swallowed
introspection failure), `this.metadata.filter` raises a `TypeError`. -/
def create (d : DaoState) (pool : Pool) (save : List (String × JsValue))
    (opts : Option CreateOpts) : DaoOut (List (String × JsValue)) :=
  let lm := loadMetadata d pool
  match lm.1.metadata with
  | none =>
    ⟨.error (.typeError "Cannot read properties of null (reading 'filter')"),
      lm.1, lm.2⟩
  | some md =>
    match createStmt lm.1.table md save opts with
    | .error e => ⟨.error e, lm.1, lm.2⟩
    | .ok stmt =>
      match pool stmt.1 stmt.2 with
      | .error e => ⟨.error e, lm.1, lm.2 ++ [stmt]⟩
      | .ok results =>
        let save :=
          if jsGtZero (resAffectedRows results) && (resInsertId results).truthy &&
              jsGtZero (resInsertId results) then
            match md.find? (fun x => x.autoincrement && x.pk) with
            | some keyCol => objSet save keyCol.column.toJsString (resInsertId results)
            | none => save
          else save
        ⟨.ok save, lm.1, lm.2 ++ [stmt]⟩

end DaoV2

/-! Concrete fixtures used by the theorems below: a table `t` with an
autoincrement integer primary key `id` plus data columns, pools with
prescribed driver behavior, and concrete builder call sequences. -/

/-- A string with all space characters removed (to compare SQL fragments up
to whitespace placement). -/
def stripSpaces (s : String) : String := ⟨s.data.filter (fun ch => ch != ' ')⟩

/-- `andGroup(); or('a','=',1); or('b','=',2); groupEnd()` on a fresh
builder. -/
def groupSeq : CriteriaHelper :=
  ((((CriteriaHelper.init none).andGroup).or "a" "=" (.num 1)).or "b" "="
      (.num 2)).groupEnd

/-- The same group sequence preceded by `and('x','=',5)`. -/
def andThenGroupSeq : CriteriaHelper :=
  (((((CriteriaHelper.init none).and "x" "=" (.num 5)).andGroup).or "a" "="
        (.num 1)).or "b" "=" (.num 2)).groupEnd

/-- A builder holding the single clause `and('x','=',5)`. -/
def andOne : CriteriaHelper := (CriteriaHelper.init none).and "x" "=" (.num 5)

/-- A concrete mixed sequence of builder calls: binary, LIKE, unary, IN and
a skipped null clause. -/
def opsW : List CritOp :=
  [.andOp "a" "=" (.num 1), .orOp "b" "like" (.str "x%"),
   .andOp "c" "is null" .undef, .whereOp "OR" "d" "in" (.arr [.num 1, .num 2]),
   .andOp "e" "=" .null]

/-- Metadata row: autoincrement integer primary key `id`. -/
def idCol : ColumnMeta :=
  { column := .str "id", sql_type := .str "int(11)", pk := true,
    nullable := false, default := .null, autoincrement := true,
    is_updated_timestamp := false, is_created_timestamp := false,
    is_updated_version := false }

/-- Metadata row: nullable varchar column `status`. -/
def statusCol : ColumnMeta :=
  { column := .str "status", sql_type := .str "varchar(32)", pk := false,
    nullable := true, default := .null, autoincrement := false,
    is_updated_timestamp := false, is_created_timestamp := false,
    is_updated_version := false }

/-- Metadata row: nullable varchar column `name`. -/
def nameCol : ColumnMeta :=
  { column := .str "name", sql_type := .str "varchar(32)", pk := false,
    nullable := true, default := .null, autoincrement := false,
    is_updated_timestamp := false, is_created_timestamp := false,
    is_updated_version := false }

/-- Metadata row: the `updated` timestamp column (updated-timestamp role
under the default options). -/
def updCol : ColumnMeta :=
  { column := .str "updated", sql_type := .str "timestamp", pk := false,
    nullable := false, default := .null, autoincrement := false,
    is_updated_timestamp := true, is_created_timestamp := false,
    is_updated_version := false }

/-- Metadata row: the `version` counter column (version role under the
default options). -/
def verCol : ColumnMeta :=
  { column := .str "version", sql_type := .str "int(11)", pk := false,
    nullable := false, default := .num 0, autoincrement := false,
    is_updated_timestamp := false, is_created_timestamp := false,
    is_updated_version := true }

/-- A gateway for table `t` (columns `id`, `status`) with metadata already
loaded. -/
def fixtureDao : DaoState :=
  { table := "t", entity := "thing", options := defaultDaoOptions,
    metadata := some [idCol, statusCol] }

/-- Metadata of the richer fixture table: `id`, `name`, `updated`,
`version`. -/
def fixtureMd2 : List ColumnMeta := [idCol, nameCol, updCol, verCol]

/-- A gateway for table `t` (columns `id`, `name`, `updated`, `version`)
with metadata already loaded. -/
def fixtureDao2 : DaoState :=
  { table := "t", entity := "thing", options := defaultDaoOptions,
    metadata := some fixtureMd2 }

/-- A gateway whose metadata cache has not been loaded yet. -/
def fixtureDaoUnloaded : DaoState :=
  { table := "t", entity := "thing", options := defaultDaoOptions,
    metadata := none }

/-- A pool that answers every statement with an empty row array. -/
def poolEmptyRows : Pool := fun _ _ => .ok (.rows [])

/-- A pool that rejects every statement with the same driver error. -/
def poolFailAll : Pool := fun _ _ => .error (.dbError "down")

/-- A pool that fails exactly on the schema-introspection query and answers
everything else with one row. -/
def poolIntrospectionFails : Pool := fun s _ =>
  if s = Dao.showColumnsSql "t" then .error (.dbError "boom")
  else .ok (.rows [[("a", .num 1)]])

/-- A pool that answers the `exists` count query with one count row. -/
def poolCountRow : Pool := fun s _ =>
  if s = Dao.existsSql "t" then .ok (.rows [[("count", .num 1)]])
  else .ok (.okPacket 0 .undef)

/-- A pool that acknowledges every statement with an OK packet and no
insert id. -/
def poolOkPacket : Pool := fun _ _ => .ok (.okPacket 1 .undef)

/-- A pool that acknowledges the fixture INSERT with generated id 42. -/
def poolInsertOk : Pool := fun s _ =>
  if s = "INSERT INTO t (name) VALUES (?);" then .ok (.okPacket 1 (.num 42))
  else .ok (.rows [])

/-- An options object with every field absent (`{}`). -/
def emptyFindOpts : Dao.FindOpts :=
  { columns := none, orderBy := none, limit := none, offset := none,
    booleanMode := none }

/-! Helper lemmas. -/

theorem qcount_append (a b : String) : qcount (a ++ b) = qcount a + qcount b := by
  unfold qcount
  rw [String.data_append, List.countP_append]

theorem qcount_space : qcount " " = 0 := rfl

theorem qcount_qmark : qcount "?" = 1 := rfl

theorem qcount_space_qmark : qcount " ?" = 1 := rfl

theorem qcount_paren_qmark : qcount "(?)" = 1 := rfl

theorem jsToUpper_eqsign : jsToUpper "=" = "=" := rfl

/-- One `_where` call either leaves the builder untouched (skip policy) or
appends a text fragment and at most one parameter, with exactly as many `?`
characters in the fragment as parameters pushed — provided the connective,
column name, and case-normalized operator contain no `?`. -/
theorem whereOp_shape (c : CriteriaHelper) (b n o : String) (v : JsValue)
    (hb : qcount b = 0) (hn : qcount n = 0) (ho : qcount (jsToUpper o) = 0) :
    c.whereOp b n o v = c ∨
    ∃ frag vs, (c.whereOp b n o v).whereClause = c.whereClause ++ frag ∧
      (c.whereOp b n o v).parms = c.parms ++ vs ∧
      qcount frag = vs.length ∧ vs.length ≤ 1 := by
  unfold CriteriaHelper.whereOp
  dsimp only
  split
  · exact Or.inl rfl
  · right
    split
    · split
      · exact ⟨n ++ " " ++ jsToUpper o, [], by simp [String.append_assoc], by simp,
          by simp [qcount_append, hn, ho, qcount_space], by simp⟩
      · exact ⟨" " ++ b ++ " " ++ n ++ " " ++ jsToUpper o, [],
          by simp [String.append_assoc], by simp,
          by simp [qcount_append, hb, hn, ho, qcount_space], by simp⟩
    · split
      · split
        · exact ⟨n ++ " " ++ jsToUpper o ++ " ?", [v], by simp [String.append_assoc],
            by simp, by simp [qcount_append, hn, ho, qcount_space, qcount_space_qmark],
            by simp⟩
        · exact ⟨" " ++ b ++ " " ++ n ++ " " ++ jsToUpper o ++ " ?", [v],
            by simp [String.append_assoc], by simp,
            by simp [qcount_append, hb, hn, ho, qcount_space, qcount_space_qmark],
            by simp⟩
      · split
        · split
          · exact ⟨n ++ " " ++ jsToUpper o ++ "(?)", [v], by simp [String.append_assoc],
              by simp, by simp [qcount_append, hn, ho, qcount_space, qcount_paren_qmark],
              by simp⟩
          · exact ⟨" " ++ b ++ " " ++ n ++ " " ++ jsToUpper o ++ "(?)", [v],
              by simp [String.append_assoc], by simp,
              by simp [qcount_append, hb, hn, ho, qcount_space, qcount_paren_qmark],
              by simp⟩
        · split
          · exact ⟨n ++ " " ++ jsToUpper o ++ "?", [v], by simp [String.append_assoc],
              by simp, by simp [qcount_append, hn, ho, qcount_space, qcount_qmark],
              by simp⟩
          · exact ⟨" " ++ b ++ " " ++ n ++ " " ++ jsToUpper o ++ "?", [v],
              by simp [String.append_assoc], by simp,
              by simp [qcount_append, hb, hn, ho, qcount_space, qcount_qmark],
              by simp⟩

/-- `whereOp_shape` lifted to `and`/`or`/`where` calls. -/
theorem applyCritOp_shape (c : CriteriaHelper) (op : CritOp) (h : op.noQ) :
    applyCritOp c op = c ∨
    ∃ frag vs, (applyCritOp c op).whereClause = c.whereClause ++ frag ∧
      (applyCritOp c op).parms = c.parms ++ vs ∧
      qcount frag = vs.length ∧ vs.length ≤ 1 := by
  cases op with
  | andOp n o v => exact whereOp_shape c "AND" n o v rfl h.1 h.2
  | orOp n o v => exact whereOp_shape c "OR" n o v rfl h.1 h.2
  | whereOp b n o v => exact whereOp_shape c b n o v h.1 h.2.1 h.2.2

/-- Running a call sequence decomposes the accumulated clause into ordered
fragments, each carrying at most one parameter and exactly as many `?`
characters as parameters. -/
theorem runCritOps_decomp (ops : List CritOp) :
    ∀ c : CriteriaHelper, (∀ op ∈ ops, op.noQ) →
    ∃ frags : List (String × List JsValue),
      (runCritOps c ops).whereClause =
        c.whereClause ++ strConcat (frags.map Prod.fst) ∧
      (runCritOps c ops).parms = c.parms ++ (frags.map Prod.snd).flatten ∧
      ∀ f ∈ frags, qcount f.1 = f.2.length ∧ f.2.length ≤ 1 := by
  induction ops with
  | nil =>
    intro c _
    exact ⟨[], by simp [runCritOps, strConcat], by simp [runCritOps], by simp⟩
  | cons op rest ih =>
    intro c h
    have hop := applyCritOp_shape c op (h op (by simp))
    have hrest := ih (applyCritOp c op) (fun x hx => h x (by simp [hx]))
    obtain ⟨frags, hwc, hp, hq⟩ := hrest
    rcases hop with heq | ⟨frag, vs, hw1, hp1, hq1, hl1⟩
    · refine ⟨frags, ?_, ?_, hq⟩
      · simpa [runCritOps, List.foldl_cons, heq] using hwc
      · simpa [runCritOps, List.foldl_cons, heq] using hp
    · refine ⟨(frag, vs) :: frags, ?_, ?_, ?_⟩
      · have hstep : (runCritOps (applyCritOp c op) rest).whereClause =
            (c.whereClause ++ frag) ++ strConcat (frags.map Prod.fst) := by
          rw [← hw1]; exact hwc
        simpa [runCritOps, List.foldl_cons, strConcat, String.append_assoc]
          using hstep
      · have hstep : (runCritOps (applyCritOp c op) rest).parms =
            (c.parms ++ vs) ++ (frags.map Prod.snd).flatten := by
          rw [← hp1]; exact hp
        simpa [runCritOps, List.foldl_cons, List.append_assoc] using hstep
      · intro f hf
        rcases List.mem_cons.mp hf with hf | hf
        · subst hf; exact ⟨hq1, hl1⟩
        · exact hq f hf

/-- The `?` count of concatenated fragments equals the total number of
attached parameters. -/
theorem strConcat_qcount (frags : List (String × List JsValue))
    (h : ∀ f ∈ frags, qcount f.1 = f.2.length) :
    qcount (strConcat (frags.map Prod.fst)) =
      ((frags.map Prod.snd).flatten).length := by
  induction frags with
  | nil => rfl
  | cons f rest ih =>
    simp only [List.map_cons, strConcat, qcount_append, List.flatten_cons,
      List.length_append]
    rw [h f (by simp), ih (fun x hx => h x (by simp [hx]))]

/-- A save-object property matching a flagged (created/version/updated)
non-primary-key column contributes nothing to the SET fold. -/
theorem updateSetsStep_excluded (fmt : JsValue → JsValue) (options : DaoOptions)
    (not_pks : List ColumnMeta) (acc : Except JsErr (String × List JsValue))
    (kv : String × JsValue) (h : Dao.excludedMatch options not_pks kv.1 = true) :
    Dao.updateSetsStep fmt options not_pks acc kv = acc := by
  unfold Dao.excludedMatch at h
  cases acc with
  | error e => rfl
  | ok p =>
    obtain ⟨sets, parms⟩ := p
    unfold Dao.updateSetsStep
    rcases hf : not_pks.find? (fun c => c.column == JsValue.str kv.1) with _ | col
    · rw [hf] at h; cases h
    · rw [hf] at h
      rw [hf]
      simp_all

/-- Dropping the flagged-column properties from the save object does not
change the SET fold. -/
theorem updateSets_filter (fmt : JsValue → JsValue) (options : DaoOptions)
    (not_pks : List ColumnMeta) :
    ∀ (save : List (String × JsValue)) (acc : Except JsErr (String × List JsValue)),
    save.foldl (Dao.updateSetsStep fmt options not_pks) acc =
      (save.filter (fun kv => !Dao.excludedMatch options not_pks kv.1)).foldl
        (Dao.updateSetsStep fmt options not_pks) acc := by
  intro save
  induction save with
  | nil => intro acc; rfl
  | cons kv rest ih =>
    intro acc
    rw [List.foldl_cons, List.filter_cons]
    by_cases h : Dao.excludedMatch options not_pks kv.1 = true
    · rw [updateSetsStep_excluded fmt options not_pks acc kv h]
      simp [h, ih]
    · simp only [Bool.not_eq_true] at h
      simp [h, List.foldl_cons, ih]

/-- When a filter returns a singleton, `find?` returns its element. -/
theorem find_of_filter_singleton {α : Type} (p : α → Bool) :
    ∀ (l : List α) (x : α), l.filter p = [x] → l.find? p = some x := by
  intro l
  induction l with
  | nil => intro x h; cases h
  | cons a t ih =>
    intro x h
    rw [List.filter_cons] at h
    by_cases hp : p a = true
    · rw [if_pos hp] at h
      injection h with h1 h2
      subst h1
      exact List.find?_cons_of_pos _ hp
    · rw [if_neg hp] at h
      rw [List.find?_cons_of_neg _ hp]
      exact ih x h

/-- A save-object property matching no eligible column contributes nothing
to the INSERT fold. -/
theorem createColsStep_unmatched (elig : List ColumnMeta)
    (acc : Except JsErr (String × String × List JsValue)) (kv : String × JsValue)
    (h : (elig.any (fun col => col.column == .str kv.1)) = false) :
    DaoV2.createColsStep elig acc kv = acc := by
  cases acc with
  | error e => rfl
  | ok p =>
    obtain ⟨cols, vals, parms⟩ := p
    unfold DaoV2.createColsStep
    have hf : elig.find? (fun x => x.column == JsValue.str kv.1) = none := by
      rw [List.find?_eq_none]
      intro x hx hpx
      rw [List.any_eq_false] at h
      exact h x hx hpx
    rw [hf]

/-- Dropping the non-matching properties from the save object does not
change the INSERT fold. -/
theorem createCols_filter (elig : List ColumnMeta) :
    ∀ (save : List (String × JsValue))
      (acc : Except JsErr (String × String × List JsValue)),
    save.foldl (DaoV2.createColsStep elig) acc =
      (save.filter (fun kv => elig.any (fun col => col.column == .str kv.1))).foldl
        (DaoV2.createColsStep elig) acc := by
  intro save
  induction save with
  | nil => intro acc; rfl
  | cons kv rest ih =>
    intro acc
    rw [List.foldl_cons, List.filter_cons]
    by_cases h : (elig.any (fun col => col.column == .str kv.1)) = true
    · simp [h, List.foldl_cons, ih]
    · simp only [Bool.not_eq_true] at h
      rw [createColsStep_unmatched elig acc kv h]
      simp [h, ih]

/-! The claims. -/

/-- C1 (counterexample): the claim quantifies over ANY columns and
operators, but a column name containing a `?` character breaks the
invariant: `and('a?','=',1)` renders `a? =?` — two `?` characters — while
pushing a single parameter. -/
theorem placeholder_count_counterexample :
    qcount ((CriteriaHelper.init none).and "a?" "=" (.num 1)).whereClause = 2 ∧
    ((CriteriaHelper.init none).and "a?" "=" (.num 1)).parms.length = 1 := by
  constructor <;> rfl

/-- C1 (amended): for every sequence of `and`/`or`/`where` calls whose
column names, connectives, and case-normalized operators contain no `?`
character, the number of `?` placeholders in the accumulated `whereClause`
equals the length of `parms`; moreover the clause splits into ordered
fragments, one per rendered call, each fragment carrying its pushed
parameters (at most one) and exactly as many `?` characters — so the
parameters appear in the same left-to-right order as their placeholders. -/
theorem criteria_placeholders_match_parms (opts : Option CriteriaHelper.CtorOpts)
    (ops : List CritOp) (h : ∀ op ∈ ops, op.noQ) :
    qcount (runCritOps (CriteriaHelper.init opts) ops).whereClause =
      (runCritOps (CriteriaHelper.init opts) ops).parms.length ∧
    ∃ frags : List (String × List JsValue),
      (runCritOps (CriteriaHelper.init opts) ops).whereClause =
        strConcat (frags.map Prod.fst) ∧
      (runCritOps (CriteriaHelper.init opts) ops).parms =
        (frags.map Prod.snd).flatten ∧
      ∀ f ∈ frags, qcount f.1 = f.2.length ∧ f.2.length ≤ 1 := by
  obtain ⟨frags, hwc, hp, hq⟩ := runCritOps_decomp ops (CriteriaHelper.init opts) h
  have hwc' : (runCritOps (CriteriaHelper.init opts) ops).whereClause =
      strConcat (frags.map Prod.fst) := by
    simpa [CriteriaHelper.init] using hwc
  have hp' : (runCritOps (CriteriaHelper.init opts) ops).parms =
      (frags.map Prod.snd).flatten := by
    simpa [CriteriaHelper.init] using hp
  refine ⟨?_, frags, hwc', hp', hq⟩
  rw [hwc', hp']
  exact strConcat_qcount frags (fun f hf => (hq f hf).1)

/-- C1 (witness): the invariant evaluated on a concrete mixed call
sequence. -/
theorem criteria_placeholders_match_parms_witness :
    qcount (runCritOps (CriteriaHelper.init none) opsW).whereClause =
      (runCritOps (CriteriaHelper.init none) opsW).parms.length :=
  (criteria_placeholders_match_parms none opsW (by decide)).1

/-- C2 (code bug): when the options argument is omitted entirely, `find`
and `count` append no LIMIT clause at all — the `LIMIT 1000` default lives
inside the `if (!_.isNil(opts))` block of `_appendOrderByAndLimit`, so the
generated SQL ends with the default `ORDER BY id ASC` and no row cap,
contradicting the claim and the function's own jsdoc ("If unspecified, the
resultset will be limited to 1000 rows"); with an options object present
but no explicit limit, the documented `... ORDER BY id ASC LIMIT 1000` is
produced. -/
theorem find_count_omitted_opts_drop_limit :
    (Dao.findStmt fixtureDao [("status", .str "active")] none).1 =
      "SELECT * FROM t  WHERE status=? ORDER BY id ASC" ∧
    strIncludes (Dao.findStmt fixtureDao [("status", .str "active")] none).1
      "LIMIT" = false ∧
    (Dao.find fixtureDao poolEmptyRows [("status", .str "active")] none).issued =
      [("SELECT * FROM t  WHERE status=? ORDER BY id ASC", [.str "active"])] ∧
    (Dao.countStmt fixtureDao [("status", .str "active")] none).1 =
      "SELECT count(*) as count FROM t  WHERE status=? ORDER BY id ASC" ∧
    (Dao.findStmt fixtureDao [("status", .str "active")] (some emptyFindOpts)).1 =
      "SELECT * FROM t  WHERE status=? ORDER BY id ASC LIMIT 1000" ∧
    (Dao.countStmt fixtureDao [("status", .str "active")] (some emptyFindOpts)).1 =
      "SELECT count(*) as count FROM t  WHERE status=? ORDER BY id ASC LIMIT 1000" :=
  ⟨by rfl, by rfl, by rfl, by rfl, by rfl, by rfl⟩

/-- C3: `updateMatching` and `deleteMatching` applied to an empty criteria
object reject with their whole-table-mutation guard errors and issue no SQL
statement whatsoever to the pool (the guard runs before the metadata fetch
and before any statement is built). -/
theorem matching_ops_refuse_empty_criteria (fmt : JsValue → JsValue)
    (d : DaoState) (pool : Pool) (save : List (String × JsValue))
    (opts : Option Dao.FindOpts) :
    (Dao.updateMatching fmt d pool save [] opts).result =
        .error (.jsError "Entire table updates are not permitted.") ∧
    (Dao.updateMatching fmt d pool save [] opts).issued = [] ∧
    (Dao.deleteMatching d pool []).result =
        .error (.jsError "Entire table deletes are not permitted.") ∧
    (Dao.deleteMatching d pool []).issued = [] :=
  ⟨rfl, rfl, rfl, rfl⟩

/-- C4: with the skip policy enabled (as every constructed builder has it),
`and(name,'=',value)` leaves the builder entirely unchanged for `undefined`,
`null` and `''` values, while `and(name,'=',0)` appends exactly one
predicate (`name =?`, with the connective iff the clause is already open)
and pushes exactly the parameter `0`. -/
theorem and_skip_policy_default (c : CriteriaHelper) (name : String)
    (hN : c.omitNull = true) (hE : c.omitEmpty = true) :
    c.and name "=" .undef = c ∧ c.and name "=" .null = c ∧
    c.and name "=" (.str "") = c ∧
    (c.and name "=" (.num 0)).whereClause =
      (if c.whereClause == "" || jsEndsWith c.whereClause "(" then
        c.whereClause ++ (name ++ " =?")
      else c.whereClause ++ (" AND " ++ name ++ " =?")) ∧
    (c.and name "=" (.num 0)).parms = c.parms ++ [.num 0] := by
  refine ⟨?_, ?_, ?_, ?_, ?_⟩
  · simp +decide [CriteriaHelper.and, CriteriaHelper.whereOp, jsToUpper_eqsign, hN,
      JsValue.isNil]
  · simp +decide [CriteriaHelper.and, CriteriaHelper.whereOp, jsToUpper_eqsign, hN,
      JsValue.isNil]
  · simp +decide [CriteriaHelper.and, CriteriaHelper.whereOp, jsToUpper_eqsign, hE,
      JsValue.isNil, jsIsEmpty]
  · simp +decide only [CriteriaHelper.and, CriteriaHelper.whereOp, jsToUpper_eqsign,
      JsValue.isNil, jsIsEmpty, Bool.and_false, Bool.false_and, Bool.and_true,
      Bool.false_or, Bool.or_false, if_false]
    split
    · apply String.ext
      simp [String.data_append]
    · apply String.ext
      simp [String.data_append]
  · simp +decide only [CriteriaHelper.and, CriteriaHelper.whereOp, jsToUpper_eqsign,
      JsValue.isNil, jsIsEmpty, Bool.and_false, Bool.false_and, Bool.and_true,
      Bool.false_or, Bool.or_false, if_false]

/-- C4 (witness): the skip and append behavior on a fresh builder. -/
theorem and_skip_policy_default_witness :
    (CriteriaHelper.init none).and "x" "=" .null = CriteriaHelper.init none ∧
    ((CriteriaHelper.init none).and "x" "=" (.num 0)).parms =
      (CriteriaHelper.init none).parms ++ [.num 0] :=
  ⟨(and_skip_policy_default (CriteriaHelper.init none) "x" rfl rfl).2.1,
    (and_skip_policy_default (CriteriaHelper.init none) "x" rfl rfl).2.2.2.2⟩

/-- C7 (counterexample): the example sequence renders
`' (a =? OR b =? ) '` — the same text as the claimed `(a=? OR b=?)` only up
to whitespace placement, not literally. -/
theorem group_render_text_counterexample :
    groupSeq.whereClause ≠ "(a=? OR b=?)" ∨ groupSeq.parms ≠ [.num 1, .num 2] := by
  left
  decide

/-- C7 (amended): opening a group on an empty clause or right after an
opening parenthesis emits no connective while opening one after an existing
clause injects `AND`/`OR`; the example sequence renders
`' (a =? OR b =? ) '` (equal to the claimed `(a=? OR b=?)` after removing
spaces) with parameters `[1, 2]`, and composed after `and('x','=',5)` it
renders `'x =? AND (a =? OR b =? ) '` with parameters `[5, 1, 2]`. -/
theorem group_connective_and_render :
    (∀ c : CriteriaHelper, (c.whereClause == "" || jsEndsWith c.whereClause "(") = true →
      c.andGroup.whereClause = c.whereClause ++ " (" ∧
      c.orGroup.whereClause = c.whereClause ++ " (") ∧
    (∀ c : CriteriaHelper, (c.whereClause == "" || jsEndsWith c.whereClause "(") = false →
      c.andGroup.whereClause = c.whereClause ++ " AND (" ∧
      c.orGroup.whereClause = c.whereClause ++ " OR (") ∧
    groupSeq.whereClause = " (a =? OR b =? ) " ∧
    groupSeq.parms = [.num 1, .num 2] ∧
    stripSpaces groupSeq.whereClause = stripSpaces "(a=? OR b=?)" ∧
    andThenGroupSeq.whereClause = "x =? AND (a =? OR b =? ) " ∧
    andThenGroupSeq.parms = [.num 5, .num 1, .num 2] := by
  refine ⟨?_, ?_, by rfl, by rfl, by rfl, by rfl, by rfl⟩
  · intro c h
    constructor <;> simp [CriteriaHelper.andGroup, CriteriaHelper.orGroup, h]
  · intro c h
    constructor <;> simp [CriteriaHelper.andGroup, CriteriaHelper.orGroup, h]

/-- C7 (witness): the connective rules applied to an empty builder and to a
builder holding one clause. -/
theorem group_connective_and_render_witness :
    (CriteriaHelper.init none).andGroup.whereClause =
      (CriteriaHelper.init none).whereClause ++ " (" ∧
    andOne.andGroup.whereClause = andOne.whereClause ++ " AND (" :=
  ⟨(group_connective_and_render.1 (CriteriaHelper.init none) (by rfl)).1,
    (group_connective_and_render.2.1 andOne (by rfl)).1⟩

/-- C9: for every constructor options object — including
`{omitIfNull: false}` and `{omitIfEmpty: false}` — the constructed builder
has `omitNull` and `omitEmpty` both true: `opts && opts.omitIfNull || true`
is truthy for every operand value, so the documented options can never
disable the null/empty skip policy. -/
theorem omit_flags_always_true (opts : Option CriteriaHelper.CtorOpts) :
    (CriteriaHelper.init opts).omitNull = true ∧
    (CriteriaHelper.init opts).omitEmpty = true := by
  constructor <;>
  · show (jsOr _ (.bool true)).truthy = true
    unfold jsOr
    split
    · assumption
    · rfl

/-- C5: (1) properties matching a column flagged as created-timestamp,
version, or updated-timestamp generate no SET term even when the entity
carries a value for them — filtering them out of the save object leaves the
SET fold unchanged; (2) whenever the updated-timestamp and version column
names are configured (non-empty strings) and at least one settable column
is present, the generated UPDATE statement sets `updated=CURRENT_TIMESTAMP`
and `version=version+1` in the same statement; (3) when no non-excluded
column-matching property is present, `update` rejects with "No data was
provided to update." and issues no SQL (metadata already cached). -/
theorem update_excludes_flagged_and_versions :
    (∀ (fmt : JsValue → JsValue) (options : DaoOptions)
        (not_pks : List ColumnMeta) (save : List (String × JsValue)),
      Dao.updateSets fmt options not_pks save =
        Dao.updateSets fmt options not_pks
          (save.filter (fun kv => !Dao.excludedMatch options not_pks kv.1))) ∧
    (∀ (fmt : JsValue → JsValue) (d : DaoState) (save : List (String × JsValue))
        (u v sets : String) (ps : List JsValue),
      d.options.updated_timestamp_column = .str u → (u == "") = false →
      d.options.version_number_column = .str v → (v == "") = false →
      Dao.updateSets fmt d.options ((d.metadata.getD []).filter (fun c => !c.pk)) save
        = .ok (sets, ps) →
      (sets == "") = false →
      ∃ w parms, Dao.updateStmt fmt d save =
        .ok ("UPDATE " ++ d.table ++ " SET " ++ sets ++ ", " ++ u ++
          "=CURRENT_TIMESTAMP" ++ ", " ++ v ++ "=" ++ v ++ "+1" ++ w, parms)) ∧
    (∀ (fmt : JsValue → JsValue) (d : DaoState) (pool : Pool)
        (save : List (String × JsValue)) (md : List ColumnMeta) (ps : List JsValue),
      d.metadata = some md →
      Dao.updateSets fmt d.options (md.filter (fun c => !c.pk)) save = .ok ("", ps) →
      (Dao.update fmt d pool save).result =
          .error (.jsError "No data was provided to update.") ∧
      (Dao.update fmt d pool save).issued = []) := by
  refine ⟨?_, ?_, ?_⟩
  · intro fmt options not_pks save
    exact updateSets_filter fmt options not_pks save (.ok ("", []))
  · intro fmt d save u v sets ps hu hune hv hvne hsets hsetsne
    have hu' : (u != "") = true := by simpa using hune
    have hv' : (v != "") = true := by simpa using hvne
    refine ⟨(if (Dao.pkWhere ((d.metadata.getD []).filter (fun c => c.pk)) save ps).1
        != "" then
        " WHERE " ++ (Dao.pkWhere ((d.metadata.getD []).filter (fun c => c.pk)) save ps).1
      else ""),
      (Dao.pkWhere ((d.metadata.getD []).filter (fun c => c.pk)) save ps).2, ?_⟩
    unfold Dao.updateStmt
    dsimp only
    rw [hsets]
    simp only [hsetsne, Bool.false_eq_true, if_false]
    unfold Dao.versioningSets
    rw [hu, hv]
    simp only [JsValue.truthy, JsValue.toJsString, hu', hv', if_true]
    by_cases hw : (((Dao.pkWhere ((d.metadata.getD []).filter (fun c => c.pk)) save ps).1
        != "") = true)
    · simp only [hw, if_true, Except.ok.injEq, Prod.mk.injEq]
      refine ⟨?_, trivial⟩
      apply String.ext
      simp [String.data_append]
    · simp only [Bool.not_eq_true] at hw
      simp only [hw, Bool.false_eq_true, if_false, Except.ok.injEq, Prod.mk.injEq]
      refine ⟨?_, trivial⟩
      apply String.ext
      simp [String.data_append]
  · intro fmt d pool save md ps hmd hsets
    have hfm : Dao.fetchMetadata d pool = (d, []) := by
      unfold Dao.fetchMetadata
      rw [hmd]
    constructor <;>
      simp [Dao.update, Dao.updateStmt, hfm, hmd, hsets]

/-- C5 (witness): on the fixture table, saving `{name, updated}` keeps only
`name=?` and appends the automatic versioning terms, and an update carrying
no column-matching property rejects without SQL. -/
theorem update_excludes_flagged_and_versions_witness :
    (∃ w parms, Dao.updateStmt (fun v => v) fixtureDao2
        [("name", .str "bob"), ("updated", .str "now")] =
      .ok ("UPDATE " ++ fixtureDao2.table ++ " SET " ++ "name=?" ++ ", " ++
        "updated" ++ "=CURRENT_TIMESTAMP" ++ ", " ++ "version" ++ "=" ++
        "version" ++ "+1" ++ w, parms)) ∧
    ((Dao.update (fun v => v) fixtureDao2 poolEmptyRows [("zzz", .num 1)]).result =
        .error (.jsError "No data was provided to update.") ∧
      (Dao.update (fun v => v) fixtureDao2 poolEmptyRows [("zzz", .num 1)]).issued
        = []) :=
  ⟨update_excludes_flagged_and_versions.2.1 (fun v => v) fixtureDao2
      [("name", .str "bob"), ("updated", .str "now")] "updated" "version"
      "name=?" [.str "bob"] rfl rfl rfl rfl (by decide) rfl,
    update_excludes_flagged_and_versions.2.2 (fun v => v) fixtureDao2
      poolEmptyRows [("zzz", .num 1)] fixtureMd2 [] rfl (by decide)⟩

/-- C6: (1) `create` includes in its INSERT only the save-object properties
matching an eligible column — filtering the others out changes nothing; (2)
by default the eligible columns are exactly the non-autoincrement-primary-
key columns, and the `opts.explicit_pk` override widens eligibility to the
whole metadata (primary keys included), as the two concrete statements
show; (3) when the metadata holds exactly one autoincrement primary-key
column and the driver reports `affectedRows > 0` with a positive
`insertId`, the generated id is written onto the input save object under
that column before it is returned. -/
theorem create_column_inclusion_and_id_writeback :
    (∀ (table : String) (md : List ColumnMeta) (opts : Option DaoV2.CreateOpts)
        (save : List (String × JsValue)),
      DaoV2.createStmt table md save opts =
        DaoV2.createStmt table md
          (save.filter (fun kv =>
            (DaoV2.createEligible md opts).any (fun col => col.column == .str kv.1)))
          opts) ∧
    (∀ (md : List ColumnMeta) (opts : Option DaoV2.CreateOpts),
      (DaoV2.explicitPk opts = false →
        DaoV2.createEligible md opts =
          md.filter (fun col => (col.pk && !col.autoincrement) || !col.pk)) ∧
      (DaoV2.explicitPk opts = true → DaoV2.createEligible md opts = md)) ∧
    (DaoV2.createStmt "t" [idCol, statusCol]
        [("id", .num 7), ("status", .str "active")] none =
      .ok ("INSERT INTO t (status) VALUES (?);", [.str "active"])) ∧
    (DaoV2.createStmt "t" [idCol, statusCol]
        [("id", .num 7), ("status", .str "active")]
        (some { explicit_pk := .bool true }) =
      .ok ("INSERT INTO t (id, status) VALUES (?, ?);", [.num 7, .str "active"])) ∧
    (∀ (d : DaoState) (pool : Pool) (save : List (String × JsValue))
        (opts : Option DaoV2.CreateOpts) (md : List ColumnMeta)
        (keyCol : ColumnMeta) (sql : String) (ps : List JsValue) (a : Nat) (n : Int),
      d.metadata = some md →
      md.filter (fun c => c.autoincrement && c.pk) = [keyCol] →
      DaoV2.createStmt d.table md save opts = .ok (sql, ps) →
      pool sql ps = .ok (.okPacket a (.num n)) →
      0 < a → 0 < n →
      (DaoV2.create d pool save opts).result =
          .ok (objSet save keyCol.column.toJsString (.num n)) ∧
      (DaoV2.create d pool save opts).issued = [(sql, ps)]) := by
  refine ⟨?_, ?_, by rfl, by rfl, ?_⟩
  · intro table md opts save
    unfold DaoV2.createStmt DaoV2.createCols
    rw [createCols_filter (DaoV2.createEligible md opts) save]
  · intro md opts
    constructor <;> intro h <;> simp [DaoV2.createEligible, h]
  · intro d pool save opts md keyCol sql ps a n hmd hfil hstmt hpool ha hn
    have hlm : DaoV2.loadMetadata d pool = (d, []) := by
      unfold DaoV2.loadMetadata
      rw [hmd]
    have hfind : md.find? (fun x => x.autoincrement && x.pk) = some keyCol :=
      find_of_filter_singleton _ md keyCol hfil
    have ha' : ((0 : Int) < (a : Int)) := by exact_mod_cast ha
    constructor <;>
      simp [DaoV2.create, hlm, hmd, hstmt, hpool, hfind, resAffectedRows,
        resInsertId, jsGtZero, JsValue.truthy, ha', hn, hn.ne.symm]

/-- C6 (witness): creating `{name: 'x'}` on the fixture table issues the
INSERT and writes the generated id 42 back under `id`. -/
theorem create_column_inclusion_and_id_writeback_witness :
    (DaoV2.create fixtureDao2 poolInsertOk [("name", .str "x")] none).result =
        .ok (objSet [("name", .str "x")] idCol.column.toJsString (.num 42)) ∧
    (DaoV2.create fixtureDao2 poolInsertOk [("name", .str "x")] none).issued =
        [("INSERT INTO t (name) VALUES (?);", [.str "x"])] :=
  create_column_inclusion_and_id_writeback.2.2.2.2 fixtureDao2 poolInsertOk
    [("name", .str "x")] none fixtureMd2 idCol
    "INSERT INTO t (name) VALUES (?);" [.str "x"] 1 42
    rfl (by decide) (by decide) (by decide) (by decide) (by decide)

/-- C8 (counterexample): a pool that fails exactly on the schema
introspection query: `find` on an unloaded gateway does not reject with
that driver error — `fetchMetadata` swallows it (its catch block only
logs), and the operation proceeds and fulfills with the rows of its own
query. -/
theorem introspection_error_not_propagated :
    Dao.sqlCommand poolIntrospectionFails (Dao.showColumnsSql "t") [] =
      .error (.dbError "boom") ∧
    (Dao.find fixtureDaoUnloaded poolIntrospectionFails [] none).result =
      .ok (.rows [[("a", .num 1)]]) ∧
    (Dao.find fixtureDaoUnloaded poolIntrospectionFails [] none).issued =
      [(Dao.showColumnsSql "t", []), ("SELECT * FROM t ", [])] :=
  ⟨by decide, by decide, by decide⟩

/-- C8 (amended): a failure of an operation's OWN pool query rejects the
operation with that driver error unchanged, for every modelled gateway
operation; but a failure of the schema-introspection query is caught and
logged inside `fetchMetadata` and never propagated — the state returns with
the cache still unloaded and the operation proceeds. -/
theorem driver_errors_propagate_unchanged :
    (∀ (d : DaoState) (pool : Pool) (e : JsErr), d.metadata = none →
      pool (Dao.showColumnsSql d.table) [] = .error e →
      Dao.fetchMetadata d pool = (d, [(Dao.showColumnsSql d.table, [])])) ∧
    (∀ (d : DaoState) (pool : Pool) (q : List (String × JsValue))
        (opts : Option Dao.FindOpts) (e : JsErr),
      pool (Dao.findStmt (Dao.fetchMetadata d pool).1 q opts).1
          (Dao.findStmt (Dao.fetchMetadata d pool).1 q opts).2 = .error e →
      (Dao.find d pool q opts).result = .error e) ∧
    (∀ (d : DaoState) (pool : Pool) (q : List (String × JsValue))
        (opts : Option Dao.FindOpts) (e : JsErr),
      pool (Dao.countStmt (Dao.fetchMetadata d pool).1 q opts).1
          (Dao.countStmt (Dao.fetchMetadata d pool).1 q opts).2 = .error e →
      (Dao.count d pool q opts).result = .error e) ∧
    (∀ (fmt : JsValue → JsValue) (d : DaoState) (pool : Pool)
        (save : List (String × JsValue)) (sql : String) (ps : List JsValue)
        (e : JsErr),
      Dao.updateStmt fmt (Dao.fetchMetadata d pool).1 save = .ok (sql, ps) →
      pool sql ps = .error e →
      (Dao.update fmt d pool save).result = .error e) ∧
    (∀ (fmt : JsValue → JsValue) (d : DaoState) (pool : Pool)
        (save criteria : List (String × JsValue)) (opts : Option Dao.FindOpts)
        (sql : String) (ps : List JsValue) (e : JsErr),
      criteria.isEmpty = false →
      Dao.updateMatchingStmt fmt (Dao.fetchMetadata d pool).1 save criteria opts =
          .ok (sql, ps) →
      pool sql ps = .error e →
      (Dao.updateMatching fmt d pool save criteria opts).result = .error e) ∧
    (∀ (d : DaoState) (pool : Pool) (criteria : List (String × JsValue)) (e : JsErr),
      criteria.isEmpty = false →
      pool (Dao.deleteMatchingStmt (Dao.fetchMetadata d pool).1 criteria).1
          (Dao.deleteMatchingStmt (Dao.fetchMetadata d pool).1 criteria).2 =
          .error e →
      (Dao.deleteMatching d pool criteria).result = .error e) ∧
    (∀ (d : DaoState) (pool : Pool) (id : JsValue) (e : JsErr),
      pool (Dao.existsSql (Dao.fetchMetadata d pool).1.table) [id] = .error e →
      (Dao.existsId d pool id).result = .error e) ∧
    (∀ (d : DaoState) (pool : Pool) (w : String) (parms : List JsValue) (e : JsErr),
      (w == "") = false →
      pool ("DELETE FROM " ++ (Dao.fetchMetadata d pool).1.table ++ " WHERE " ++ w)
          parms = .error e →
      (Dao.deleteWhere d pool (some w) parms).result = .error e) ∧
    (∀ (d : DaoState) (pool : Pool) (save : List (String × JsValue))
        (opts : Option DaoV2.CreateOpts) (md : List ColumnMeta)
        (sql : String) (ps : List JsValue) (e : JsErr),
      (DaoV2.loadMetadata d pool).1.metadata = some md →
      DaoV2.createStmt (DaoV2.loadMetadata d pool).1.table md save opts =
          .ok (sql, ps) →
      pool sql ps = .error e →
      (DaoV2.create d pool save opts).result = .error e) := by
  refine ⟨?_, ?_, ?_, ?_, ?_, ?_, ?_, ?_, ?_⟩
  · intro d pool e hmd h
    unfold Dao.fetchMetadata Dao.sqlCommand
    simp [hmd, h]
  · intro d pool q opts e h
    unfold Dao.find Dao.sqlCommand
    simp [h]
  · intro d pool q opts e h
    unfold Dao.count Dao.sqlCommand
    simp [h]
  · intro fmt d pool save sql ps e hstmt h
    unfold Dao.update Dao.sqlCommand
    simp [hstmt, h]
  · intro fmt d pool save criteria opts sql ps e hcrit hstmt h
    unfold Dao.updateMatching Dao.sqlCommand
    simp [hcrit, hstmt, h]
  · intro d pool criteria e hcrit h
    unfold Dao.deleteMatching Dao.sqlCommand
    simp [hcrit, h]
  · intro d pool id e h
    unfold Dao.existsId Dao.sqlCommand
    simp [h]
  · intro d pool w parms e hw h
    unfold Dao.deleteWhere Dao.sqlCommand
    simp [hw, h]
  · intro d pool save opts md sql ps e hmd hstmt h
    unfold DaoV2.create
    simp [hmd, hstmt, h]

/-- C8 (witness): the propagation conjuncts applied to a uniformly failing
pool on the fixtures, and the swallow conjunct on an unloaded gateway. -/
theorem driver_errors_propagate_unchanged_witness :
    Dao.fetchMetadata fixtureDaoUnloaded poolFailAll =
      (fixtureDaoUnloaded, [(Dao.showColumnsSql "t", [])]) ∧
    (Dao.find fixtureDao poolFailAll [] none).result = .error (.dbError "down") ∧
    (Dao.count fixtureDao poolFailAll [] none).result = .error (.dbError "down") ∧
    (Dao.update (fun v => v) fixtureDao2 poolFailAll
        [("name", .str "bob")]).result = .error (.dbError "down") ∧
    (Dao.updateMatching (fun v => v) fixtureDao2 poolFailAll
        [("name", .str "bob")] [("status", .str "x")] none).result =
      .error (.dbError "down") ∧
    (Dao.deleteMatching fixtureDao2 poolFailAll [("status", .str "x")]).result =
      .error (.dbError "down") ∧
    (Dao.existsId fixtureDao poolFailAll (.num 1)).result =
      .error (.dbError "down") ∧
    (Dao.deleteWhere fixtureDao poolFailAll (some "id=1") []).result =
      .error (.dbError "down") ∧
    (DaoV2.create fixtureDao2 poolFailAll [("name", .str "x")] none).result =
      .error (.dbError "down") :=
  ⟨driver_errors_propagate_unchanged.1 fixtureDaoUnloaded poolFailAll
      (.dbError "down") rfl rfl,
    driver_errors_propagate_unchanged.2.1 fixtureDao poolFailAll [] none
      (.dbError "down") rfl,
    driver_errors_propagate_unchanged.2.2.1 fixtureDao poolFailAll [] none
      (.dbError "down") rfl,
    driver_errors_propagate_unchanged.2.2.2.1 (fun v => v) fixtureDao2 poolFailAll
      [("name", .str "bob")]
      "UPDATE t SET name=?, updated=CURRENT_TIMESTAMP, version=version+1 WHERE id=?"
      [.str "bob", .undef] (.dbError "down") (by decide) rfl,
    driver_errors_propagate_unchanged.2.2.2.2.1 (fun v => v) fixtureDao2 poolFailAll
      [("name", .str "bob")] [("status", .str "x")] none
      "UPDATE t SET name=?, updated=CURRENT_TIMESTAMP, version=version+1 WHERE status=? ORDER BY id ASC"
      [.str "bob", .str "x"] (.dbError "down") rfl (by decide) rfl,
    driver_errors_propagate_unchanged.2.2.2.2.2.1 fixtureDao2 poolFailAll
      [("status", .str "x")] (.dbError "down") rfl rfl,
    driver_errors_propagate_unchanged.2.2.2.2.2.2.1 fixtureDao poolFailAll (.num 1)
      (.dbError "down") rfl,
    driver_errors_propagate_unchanged.2.2.2.2.2.2.2.1 fixtureDao poolFailAll "id=1"
      [] (.dbError "down") rfl rfl,
    driver_errors_propagate_unchanged.2.2.2.2.2.2.2.2 fixtureDao2 poolFailAll
      [("name", .str "x")] none fixtureMd2
      "INSERT INTO t (name) VALUES (?);" [.str "x"] (.dbError "down")
      rfl (by decide) rfl⟩

/-- C10: `exists(id)` never fulfills — its success path calls the undefined
identifier `resolve`, so even a successful count query ends in a rethrown
`ReferenceError` (and an empty result or OK packet in a `TypeError`);
`deleteWhere` has the same defect on its success path, so its DELETE
statement is issued to the pool and yet the returned promise rejects. -/
theorem existsId_deleteWhere_never_fulfill :
    (∀ (d : DaoState) (pool : Pool) (id : JsValue),
      ∃ e, (Dao.existsId d pool id).result = .error e) ∧
    (∀ (d : DaoState) (pool : Pool) (id : JsValue) (r : Row) (rs : List Row),
      pool (Dao.existsSql (Dao.fetchMetadata d pool).1.table) [id] =
          .ok (.rows (r :: rs)) →
      (Dao.existsId d pool id).result =
        .error (.referenceError "resolve is not defined")) ∧
    (∀ (d : DaoState) (pool : Pool) (w : String) (parms : List JsValue)
        (res : QueryResult),
      (w == "") = false →
      pool ("DELETE FROM " ++ (Dao.fetchMetadata d pool).1.table ++ " WHERE " ++ w)
          parms = .ok res →
      (Dao.deleteWhere d pool (some w) parms).result =
          .error (.referenceError "resolve is not defined") ∧
      (Dao.deleteWhere d pool (some w) parms).issued =
        (Dao.fetchMetadata d pool).2 ++
          [("DELETE FROM " ++ (Dao.fetchMetadata d pool).1.table ++ " WHERE " ++ w,
            parms)]) := by
  refine ⟨?_, ?_, ?_⟩
  · intro d pool id
    rcases h : pool (Dao.existsSql (Dao.fetchMetadata d pool).1.table) [id] with e | r
    · exact ⟨e, by unfold Dao.existsId Dao.sqlCommand; simp [h]⟩
    · rcases r with rs | ⟨a, i⟩
      · rcases rs with _ | ⟨r1, rest⟩
        · exact ⟨.typeError "Cannot read properties of undefined (reading 'count')",
            by unfold Dao.existsId Dao.sqlCommand; simp [h]⟩
        · exact ⟨.referenceError "resolve is not defined",
            by unfold Dao.existsId Dao.sqlCommand; simp [h]⟩
      · exact ⟨.typeError "Cannot read properties of undefined (reading 'count')",
          by unfold Dao.existsId Dao.sqlCommand; simp [h]⟩
  · intro d pool id r rs h
    unfold Dao.existsId Dao.sqlCommand
    simp [h]
  · intro d pool w parms res hw h
    unfold Dao.deleteWhere Dao.sqlCommand
    simp [h, hw]

/-- C10 (witness): a successful count row still rejects `exists` with the
`ReferenceError`, and a successful DELETE still rejects `deleteWhere` while
the statement was issued. -/
theorem existsId_deleteWhere_never_fulfill_witness :
    (Dao.existsId fixtureDao2 poolCountRow (.num 1)).result =
      .error (.referenceError "resolve is not defined") ∧
    (Dao.deleteWhere fixtureDao2 poolOkPacket (some "id=1") []).result =
      .error (.referenceError "resolve is not defined") :=
  ⟨existsId_deleteWhere_never_fulfill.2.1 fixtureDao2 poolCountRow (.num 1)
      [("count", .num 1)] [] (by decide),
    (existsId_deleteWhere_never_fulfill.2.2 fixtureDao2 poolOkPacket "id=1" []
      (.okPacket 1 .undef) rfl rfl).1⟩
